import Mathlib

/-!
Verification of the options-trader core against its specification.

The development shallowly embeds the computational core of the repository:

* `src/core/options_chain.py` — chain normalization (`OptionsChain._process`)
  and the filtering operations (`filter_by_dte`, `filter_by_premium`,
  `filter_by_type`, `filter_by_volume`, `filter_by_oi`);
* `src/core/volatility.py` — `VolatilityCalculator.calculate_iv_rank`;
* `src/analysis/scoring.py` — the `OpportunityScorer` sub-score functions;
* `src/analysis/risk.py` — `RiskCalculator.calculate_long_option_risk`
  together with the `RiskConfig` dataclass of `src/config.py`;
* `src/strategies/single_leg.py` — `SingleLegStrategy.get_exit_signal`.

Modelling conventions:

* Python floats are modelled as `ℚ`; none of the verified comparisons sits on
  a binary-rounding boundary, and NaN (which floats admit and rationals do
  not) is modelled explicitly by `Option ℚ` where it can occur (pandas cells).
* A pandas `DataFrame` is modelled by `DF`: a record of column-presence flags
  plus a list of rows whose cells are `Option ℚ` (`none` = NaN).  A cell of an
  absent column is never read; computations consult the presence flag first,
  exactly as the Python code tests `col in df.columns`.
* Python exceptions (`ValueError`, `KeyError`, `AttributeError`) are modelled
  by `Except PyError`; the interpolated numbers of the Python messages are not
  reproduced, only the error kind and a fixed text.
-/

/-- Python exceptions that the embedded code can raise. -/
inductive PyError where
  | valueError (msg : String)
  | keyError (key : String)
  | attributeError (msg : String)
deriving DecidableEq, Repr

/-- A numeric pandas cell: `none` plays the role of NaN. -/
abbrev Val := Option ℚ

/-- Elementwise arithmetic on cells: any operation with NaN yields NaN. -/
def vMap2 (f : ℚ → ℚ → ℚ) : Val → Val → Val
  | some a, some b => some (f a b)
  | _, _ => none

/-- Multiply a cell by a constant (NaN stays NaN). -/
def vMulC (x : Val) (c : ℚ) : Val := x.map (· * c)

/-- Pandas comparison `x > c`: NaN compares `False`. -/
def vGtC (x : Val) (c : ℚ) : Bool :=
  match x with
  | some v => decide (c < v)
  | none => false

/-- Pandas comparison `x <= c`: NaN compares `False`. -/
def vLeC (x : Val) (c : ℚ) : Bool :=
  match x with
  | some v => decide (v ≤ c)
  | none => false

/-- Pandas comparison `x >= c`: NaN compares `False`. -/
def vGeC (x : Val) (c : ℚ) : Bool :=
  match x with
  | some v => decide (c ≤ v)
  | none => false

/-- Pandas comparison `x < c`: NaN compares `False`. -/
def vLtC (x : Val) (c : ℚ) : Bool :=
  match x with
  | some v => decide (v < c)
  | none => false

/-- Python comparison `c < x` on a possibly-NaN value: NaN compares `False`. -/
def cLtV (c : ℚ) (x : Val) : Bool :=
  match x with
  | some v => decide (c < v)
  | none => false

/-- Python comparison `c <= x` on a possibly-NaN value: NaN compares `False`. -/
def cLeV (c : ℚ) (x : Val) : Bool :=
  match x with
  | some v => decide (c ≤ v)
  | none => false

/-- Python builtin `min(a, x)` where `x` may be NaN: CPython keeps the first
argument unless `x < a`, so `min(a, nan) = a`. -/
def pyMin (a : ℚ) (x : Val) : ℚ :=
  match x with
  | some v => if v < a then v else a
  | none => a

/-- Python `int(q)`: truncation toward zero — floor for non-negative values,
ceiling for negative ones. -/
def pyInt (q : ℚ) : ℤ := if 0 ≤ q then ⌊q⌋ else ⌈q⌉

/-- ASCII lower-casing of one character, as Python `str.lower` acts on the
option-type strings handled here. -/
def pyLowerChar (c : Char) : Char :=
  if c.toNat < 65 then c
  else if c.toNat ≤ 90 then Char.ofNat (c.toNat + 32)
  else c

/-- Python `str.lower()` (ASCII range). -/
def pyLower (s : String) : String := String.mk (s.data.map pyLowerChar)

/-- One row of an option-chain table.  `strike`, `dte` and `option_type` are
the columns every table handled by the system carries (`get_options_chain`
adds `dte`/`option_type`; `_process` coerces `strike`/`dte` unconditionally);
all other cells are optional-column values, meaningful only when the matching
presence flag of the surrounding `DF` is set.  Vendor-named columns
(`lastPrice`, `openInterest`, `impliedVolatility`) and the canonical derived
columns (`mid_price`, `iv_pct`, `premium`, `liquidity_ratio`) are distinct
fields, because `_process` renames the former and recomputes the latter. -/
structure Row where
  strike : ℚ
  dte : ℤ
  option_type : String
  lastPrice : Val
  bid : Val
  ask : Val
  volume : Val
  openInterest : Val
  impliedVolatility : Val
  mid_price : Val
  iv_pct : Val
  premium : Val
  liquidity_ratio : Val
deriving DecidableEq, Repr

/-- An option-chain `DataFrame`: column-presence flags plus rows.
`hasOpenInterest`/`hasIv`/`hasLastPrice` refer to the vendor-named columns
`openInterest`/`impliedVolatility`/`lastPrice` of a raw table. -/
structure DF where
  hasOptionType : Bool
  hasLastPrice : Bool
  hasBid : Bool
  hasAsk : Bool
  hasVolume : Bool
  hasOpenInterest : Bool
  hasIv : Bool
  hasMidPrice : Bool
  hasIvPct : Bool
  hasPremium : Bool
  hasLiquidityRatio : Bool
  rows : List Row
deriving DecidableEq, Repr

/-! ## Chain normalization (`src/core/options_chain.py`, `OptionsChain._process`)

`_process` (lines 39–107) renames vendor columns via `column_mapping`
(line 63 builds `rename_map` from the *pre*-rename columns, line 64 renames)
and then selects the columns to keep — but line 68 evaluates
`k in df.columns` on the *post*-rename frame.  Consequently only the
identity-mapped keys (`strike`, `bid`, `ask`, `volume`) and the unconditional
`expiration`/`dte`/`option_type` survive the selection; every renamed column
(`mid_price` from `lastPrice`, `open_interest` from `openInterest`, `iv` from
`impliedVolatility`, `itm`, `contract_symbol`, `last_trade_date`) is dropped
at line 69.  Downstream this means:

* line 76's `'bid' in df.columns and 'ask' in df.columns` is the only way a
  `mid_price` column comes into existence, and line 79's
  `fillna(df.get('lastPrice', ...))` is a no-op (no `lastPrice` column
  remains), so the documented last-price fallback never fires;
* line 82's `'iv' in df.columns` is always false: `iv_pct` is the all-NaN
  column of line 85;
* line 88's `'ask' in df.columns` decides the premium source; when `ask` is
  absent, line 91 indexes `df['mid_price']`, raising `KeyError` unless both
  `bid` and `ask` are present — impossible — so a table without an `ask`
  column always raises;
* line 97's `'open_interest' in df.columns` is always false: the
  `liquidity_ratio` column of line 104 is all NaN and line 100 (which would
  read `df['volume']`) is dead code.
-/

/-- Column selection applied to one row (lines 62–69): the cells of every
column outside the kept set (`expiration`, `dte`, `option_type`, `strike`,
`bid`, `ask`, `volume`) are discarded. -/
def selRow (r : Row) : Row :=
  { r with
    lastPrice := none
    openInterest := none
    impliedVolatility := none
    mid_price := none
    iv_pct := none
    premium := none
    liquidity_ratio := none }

/-- Derived-field computation for one row (lines 72–104), given the presence
flags of `bid` and `ask` in the selected frame. -/
def procRow (hasBid hasAsk : Bool) (r : Row) : Row :=
  let r1 := selRow r
  -- lines 76–79: mid price from bid/ask; the lastPrice fallback is a no-op
  let r2 :=
    if hasBid && hasAsk then
      { r1 with mid_price := (vMap2 (· + ·) r1.bid r1.ask).map (· / 2) }
    else r1
  -- lines 82–85: no `iv` column survives the selection, so `iv_pct` is NaN
  let r3 := { r2 with iv_pct := none }
  -- lines 88–91: premium from ask, else from mid_price
  let r4 :=
    if hasAsk then { r3 with premium := vMulC r3.ask 100 }
    else { r3 with premium := vMulC r3.mid_price 100 }
  -- lines 96–104: no `open_interest` column survives, so `liquidity_ratio`
  -- is the all-NaN column and the volume/open_interest quotient is dead code
  { r4 with liquidity_ratio := none }

/-- Row mask of line 94: `df['premium'] > 0` (NaN premiums compare `False`). -/
def premPos (r : Row) : Bool := vGtC r.premium 0

/-- The frame produced by a successful `_process` run. -/
def procDF (df : DF) : DF :=
  { hasOptionType := df.hasOptionType
    hasLastPrice := false
    hasBid := df.hasBid
    hasAsk := df.hasAsk
    hasVolume := df.hasVolume
    hasOpenInterest := false
    hasIv := false
    hasMidPrice := df.hasBid && df.hasAsk
    hasIvPct := true
    hasPremium := true
    hasLiquidityRatio := true
    rows := (df.rows.map (procRow df.hasBid df.hasAsk)).filter premPos }

/-- `OptionsChain._process` (lines 39–107).  The premium computation needs the
`ask` column (line 88) or — in the line 91 branch — the `mid_price` column,
which exists only when both `bid` and `ask` do; otherwise `KeyError`. -/
def pyProcess (df : DF) : Except PyError DF :=
  if df.hasAsk || (df.hasBid && df.hasAsk) then .ok (procDF df)
  else .error (.keyError "mid_price")

/-- Message of the line 34 `ValueError`. -/
def emptyChainMsg : String := "Cannot initialize OptionsChain with empty data"

/-- `OptionsChain.__init__` (lines 26–37): reject `None`/empty input, then
process.  Every filter method rebuilds the chain through this constructor. -/
def OptionsChain.init (df : DF) : Except PyError DF :=
  if df.rows.isEmpty then .error (.valueError emptyChainMsg)
  else pyProcess df

/-- `filter_by_dte` (lines 109–112): keep rows with `min_dte ≤ dte ≤ max_dte`
and rebuild an `OptionsChain` from the masked frame. -/
def filter_by_dte (c : DF) (min_dte max_dte : ℤ) : Except PyError DF :=
  OptionsChain.init
    { c with rows := c.rows.filter fun r => decide (min_dte ≤ r.dte) && decide (r.dte ≤ max_dte) }

/-- `filter_by_premium` (lines 114–117): keep rows with `premium ≤ max_premium`.
Indexing `self.processed['premium']` raises `KeyError` when the column is
absent (it never is on a processed frame). -/
def filter_by_premium (c : DF) (max_premium : ℚ) : Except PyError DF :=
  if c.hasPremium then
    OptionsChain.init { c with rows := c.rows.filter fun r => vLeC r.premium max_premium }
  else .error (.keyError "premium")

/-- `filter_by_volume` (lines 119–125): when the `volume` column is absent the
filter skips masking — but still rebuilds an `OptionsChain` from
`self.processed`, re-running `_process` and the empty-input check. -/
def filter_by_volume (c : DF) (min_volume : ℚ) : Except PyError DF :=
  if c.hasVolume then
    OptionsChain.init { c with rows := c.rows.filter fun r => vGeC r.volume min_volume }
  else OptionsChain.init c

/-- `filter_by_oi` (lines 127–133): the guard tests for a column named
`open_interest`.  No frame in the system carries one — raw vendor frames name
it `openInterest` and `_process` drops the renamed column — so the skip
branch is always taken, rebuilding the chain from `self.processed`. -/
def filter_by_oi (c : DF) (_min_oi : ℚ) : Except PyError DF :=
  OptionsChain.init c

/-- `filter_by_type` (lines 135–138): keep rows whose `option_type` equals the
lower-cased argument; `KeyError` when the column is absent. -/
def filter_by_type (c : DF) (option_type : String) : Except PyError DF :=
  if c.hasOptionType then
    OptionsChain.init { c with rows := c.rows.filter fun r => r.option_type == pyLower option_type }
  else .error (.keyError "option_type")

/-! ## IV rank (`src/core/volatility.py`, `calculate_iv_rank`, lines 84–129)

The rolling historical-volatility proxy series (lines 103–108) is built from
log returns, a rolling standard deviation and `√252` — transcendental
operations with no exact rational counterpart.  The claims about
`calculate_iv_rank` hold for *every* value of that series, so the embedding
takes the post-`dropna` series `hv_history` as its input; every price history
gives rise to some such series. -/

/-- `np.clip(x, lo, hi)`: clip below, then above. -/
def clip (x lo hi : ℚ) : ℚ := min (max x lo) hi

/-- `VolatilityCalculator.calculate_iv_rank` (lines 108–129), from the
rolling-HV history and the current IV: empty history defaults both outputs to
50; rank defaults to 50 when the history has no spread; both outputs are
clipped to `[0, 100]`. -/
def calculate_iv_rank (hv_history : List ℚ) (current_iv : ℚ) : ℚ × ℚ :=
  match hv_history with
  | [] => (50, 50)
  | x :: xs =>
    let iv_low := xs.foldl min x
    let iv_high := xs.foldl max x
    let iv_rank :=
      if iv_high = iv_low then (50 : ℚ)
      else (current_iv - iv_low) / (iv_high - iv_low) * 100
    let iv_percentile :=
      (((x :: xs).countP fun v => decide (v < current_iv) : ℚ) / ((x :: xs).length : ℚ)) * 100
    (clip iv_rank 0 100, clip iv_percentile 0 100)

/-! ## Opportunity scoring (`src/analysis/scoring.py`)

`score_opportunity` reads the snapshot dict and each row with `.get`
defaults.  A `Series.get` on a present label can still yield NaN, so row
lookups produce a `Val`; the snapshot `iv_rank` comes from
`calculate_iv_rank`, which never yields NaN, so it is a plain rational. -/

/-- The `snapshot['volatility']` dict as the scorer reads it:
`.get('iv_rank', 50)` supplies 50 when the key is missing. -/
structure VolDict where
  iv_rank : Option ℚ
deriving DecidableEq, Repr

/-- The market-snapshot dict: `volatility` may be missing altogether. -/
structure Snapshot where
  volatility : Option VolDict
deriving DecidableEq, Repr

/-- A row as the scorer reads it: `none` = column/label absent (the `.get`
default applies), `some none` = present but NaN. -/
structure SRow where
  volume : Option Val
  open_interest : Option Val
  dte : Option Val
  premium : Option Val
  liquidity_ratio : Option Val
deriving DecidableEq, Repr

/-- `row.get(label, d)`: the default fills a missing label, not a NaN cell. -/
def sget (x : Option Val) (d : ℚ) : Val := x.getD (some d)

/-- `OpportunityScorer._score_iv_rank` (lines 80–105). -/
def score_iv_rank (snapshot : Snapshot) : ℚ :=
  match snapshot.volatility with
  | none => 50
  | some vol =>
    let iv_rank := vol.iv_rank.getD 50
    if iv_rank < 30 then 80 + (30 - iv_rank)
    else if iv_rank < 50 then 70 - (iv_rank - 30)
    else max 10 (50 - (iv_rank - 50) * (1 / 2))

/-- `OpportunityScorer._score_liquidity` (lines 107–124).  `min(100, v/100)`
follows CPython `min`, which returns 100 when the quotient is NaN. -/
def score_liquidity (r : SRow) : ℚ :=
  let volume := sget r.volume 0
  let oi := sget r.open_interest 0
  if vLtC volume 100 || vLtC oi 100 then 0
  else
    let volume_score := pyMin 100 (vMulC volume (1 / 100))
    let oi_score := pyMin 100 (vMulC oi (1 / 100))
    (volume_score + oi_score) / 2

/-- `OpportunityScorer._score_dte` (lines 126–145); a NaN `dte` falls through
every comparison to the final 40. -/
def score_dte (r : SRow) : ℚ :=
  let dte := sget r.dte 0
  if vLtC dte 7 then 20
  else if cLeV 7 dte && vLeC dte 14 then 90
  else if cLtV 14 dte && vLeC dte 30 then 100
  else if cLtV 30 dte && vLeC dte 45 then 70
  else 40

/-- `OpportunityScorer._score_premium` (lines 147–165). -/
def score_premium (r : SRow) : ℚ :=
  let premium := sget r.premium 0
  if vLtC premium 20 then 30
  else if vLeC premium 100 then 100
  else if vLeC premium 200 then 70
  else 30

/-- `OpportunityScorer._score_volume_surge` (lines 167–182). -/
def score_volume_surge (r : SRow) : ℚ :=
  let ratio := sget r.liquidity_ratio 0
  if cLtV 2 ratio then 100
  else if cLtV 1 ratio then 70
  else if cLtV (1 / 2) ratio then 50
  else 30

/-- `OpportunityScorer._get_grade` (lines 184–195). -/
def get_grade (score : ℚ) : String :=
  if 85 ≤ score then "A"
  else if 70 ≤ score then "B"
  else if 55 ≤ score then "C"
  else if 40 ≤ score then "D"
  else "F"

/-- The scores record returned by `score_opportunity`. -/
structure Scores where
  iv_rank_score : ℚ
  liquidity_score : ℚ
  dte_score : ℚ
  premium_score : ℚ
  volume_surge_score : ℚ
  trend_score : ℚ
  total_score : ℚ
  grade : String
deriving DecidableEq, Repr

/-- `OpportunityScorer.score_opportunity` (lines 37–78) with the weight table
of lines 28–35 (0.25 / 0.20 / 0.15 / 0.15 / 0.15 / 0.10). -/
def score_opportunity (r : SRow) (snapshot : Snapshot) : Scores :=
  let iv := score_iv_rank snapshot
  let liq := score_liquidity r
  let dte := score_dte r
  let prem := score_premium r
  let vs := score_volume_surge r
  let trend : ℚ := 50
  let total := iv * (25 / 100) + liq * (20 / 100) + dte * (15 / 100)
    + prem * (15 / 100) + vs * (15 / 100) + trend * (10 / 100)
  { iv_rank_score := iv
    liquidity_score := liq
    dte_score := dte
    premium_score := prem
    volume_surge_score := vs
    trend_score := trend
    total_score := total
    grade := get_grade total }

/-! ## Risk sizing (`src/analysis/risk.py` with `src/config.py`) -/

/-- The `RiskConfig` dataclass (config.py lines 41–48).  Note that it defines
*no* `max_premium` field — that field lives on `ScanningConfig`
(config.py line 36). -/
structure RiskConfig where
  max_portfolio_risk : ℚ
  max_position_size : ℚ
  max_sector_exposure : ℚ
  stop_loss_pct : ℚ
  profit_target_pct : ℚ
deriving DecidableEq, Repr

/-- The module-level default instance `risk_config` (config.py line 78). -/
def risk_config : RiskConfig :=
  { max_portfolio_risk := 2 / 100
    max_position_size := 10 / 100
    max_sector_exposure := 30 / 100
    stop_loss_pct := 1 / 2
    profit_target_pct := 1 / 2 }

/-- The `TradeRisk` dataclass (risk.py lines 19–30); `warnings` is `None`
when the list would be empty (risk.py line 117). -/
structure TradeRisk where
  max_loss : ℚ
  max_gain : ℚ
  break_even : ℚ
  risk_reward_ratio : ℚ
  position_size : ℤ
  account_risk_pct : ℚ
  probability_of_profit : Option ℚ
  recommended : Bool
  warnings : Option (List String)
deriving DecidableEq, Repr

/-- Warning text of risk.py line 101 (numeric interpolation not modelled). -/
def riskWarnMsg : String := "Position risk exceeds max"

/-- Warning text of risk.py line 107 (numeric interpolation not modelled). -/
def premWarnMsg : String := "Premium exceeds max"

/-- Modelled from the spec: the computation of
`RiskCalculator.calculate_long_option_risk` (risk.py lines 57–118) as it
behaves when the configured `max_premium` attribute exists — the spec
(§6, §4.4) has the risk configuration supply `max_premium` (default 200, the
value `ScanningConfig` carries); the shipped `RiskConfig` lacks the field, so
the function body can only be run to completion against this parameterised
form. -/
def calculate_long_option_risk_core (account_value max_portfolio_risk max_premium premium : ℚ)
    (contracts : ℤ) : TradeRisk :=
  let total_premium := premium * (contracts : ℚ) * 100
  let max_loss := total_premium
  let max_gain := total_premium * 3
  let break_even := premium
  let rr_ratio := if 0 < max_gain then max_loss / max_gain else 0
  let max_risk_amount := account_value * max_portfolio_risk
  let recommended_contracts := max 1 (pyInt (max_risk_amount / (premium * 100)))
  let account_risk_pct := total_premium / account_value * 100
  let riskTooHigh : Bool := decide (max_portfolio_risk * 100 < account_risk_pct)
  let premTooHigh : Bool := decide (max_premium < premium)
  let warnings := (if riskTooHigh then [riskWarnMsg] else [])
    ++ (if premTooHigh then [premWarnMsg] else [])
  { max_loss := max_loss
    max_gain := max_gain
    break_even := break_even
    risk_reward_ratio := rr_ratio
    position_size := recommended_contracts
    account_risk_pct := account_risk_pct
    probability_of_profit := none
    recommended := !riskTooHigh
    warnings := if warnings.isEmpty then none else some warnings }

/-- `RiskCalculator.calculate_long_option_risk` (risk.py lines 57–118) as it
actually runs with a `RiskConfig`: lines 72–104 compute the risk numbers, and
line 106 then reads `self.config.max_premium` — an attribute `RiskConfig`
does not define — so the call raises `AttributeError` before returning. -/
def calculate_long_option_risk (account_value : ℚ) (cfg : RiskConfig) (premium : ℚ)
    (contracts : ℤ) : Except PyError TradeRisk :=
  let total_premium := premium * (contracts : ℚ) * 100
  let max_risk_amount := account_value * cfg.max_portfolio_risk
  let _recommended_contracts := max 1 (pyInt (max_risk_amount / (premium * 100)))
  let _account_risk_pct := total_premium / account_value * 100
  -- line 106: `self.config.max_premium` on a `RiskConfig` instance
  .error (.attributeError "RiskConfig object has no attribute max_premium")

/-! ## Exit signals (`src/strategies/single_leg.py`, `get_exit_signal`) -/

/-- An open position as the strategy reads it (lines 94–97): every field is
fetched with `position.get(key, default)`, so each may be missing. -/
structure Position where
  entry_price : Option ℚ
  current_price : Option ℚ
  dte : Option ℤ
  contracts : Option ℤ
deriving DecidableEq, Repr

/-- The three exit-signal kinds of lines 106–127 (the formatted reason
strings are reduced to their kind). -/
inductive ExitReason where
  | profitTarget
  | stopLoss
  | expirationDecay
deriving DecidableEq, Repr

/-- The dict returned by `get_exit_signal` on an exit. -/
structure ExitSignal where
  action : String
  reason : ExitReason
  pnl : ℚ
deriving DecidableEq, Repr

/-- `SingleLegStrategy.get_exit_signal` (lines 83–130): defaults for missing
fields, a zero-price guard returning `None`, then the profit-target /
stop-loss / expiration-decay checks in that order. -/
def get_exit_signal (position : Position) : Option ExitSignal :=
  let entry_price := position.entry_price.getD 0
  let current_price := position.current_price.getD 0
  let dte := position.dte.getD 0
  let contracts := position.contracts.getD 1
  if entry_price = 0 ∨ current_price = 0 then none
  else
    let pnl_pct := (current_price - entry_price) / entry_price * 100
    let pnl := current_price * (contracts : ℚ) * 100 - entry_price * (contracts : ℚ) * 100
    if 50 ≤ pnl_pct then some { action := "sell", reason := .profitTarget, pnl := pnl }
    else if pnl_pct ≤ -50 then some { action := "sell", reason := .stopLoss, pnl := pnl }
    else if dte ≤ 3 ∧ pnl_pct < 20 then
      some { action := "sell", reason := .expirationDecay, pnl := pnl }
    else none

/-- Reason kind of an optional exit signal. -/
def exitReason (s : Option ExitSignal) : Option ExitReason := s.map (·.reason)

/-! ## Concrete fixtures -/

/-- A full vendor-schema quote row: one call contract, 10 days out, ask 1.10,
bid 0.90, last 1.00, volume 5, open interest 50, implied volatility 0.25. -/
def rawRowC1 : Row :=
  { strike := 100
    dte := 10
    option_type := "call"
    lastPrice := some 1
    bid := some (9 / 10)
    ask := some (11 / 10)
    volume := some 5
    openInterest := some 50
    impliedVolatility := some (1 / 4)
    mid_price := none
    iv_pct := none
    premium := none
    liquidity_ratio := none }

/-- A raw chain with the full vendor schema and the single row `rawRowC1`. -/
def rawChainC1 : DF :=
  { hasOptionType := true
    hasLastPrice := true
    hasBid := true
    hasAsk := true
    hasVolume := true
    hasOpenInterest := true
    hasIv := true
    hasMidPrice := false
    hasIvPct := false
    hasPremium := false
    hasLiquidityRatio := false
    rows := [rawRowC1] }

/-- A raw row carrying only the spec-minimal price data: a last-traded price
but no bid/ask quotes. -/
def rawRowLastOnly : Row :=
  { strike := 100
    dte := 10
    option_type := "call"
    lastPrice := some (3 / 2)
    bid := none
    ask := none
    volume := none
    openInterest := none
    impliedVolatility := none
    mid_price := none
    iv_pct := none
    premium := none
    liquidity_ratio := none }

/-- A raw chain whose only price column is `lastPrice` (spec §6 admits
`one of {bid+ask | last price}`); `volume`, `openInterest` and
`impliedVolatility` are absent. -/
def rawChainLastOnly : DF :=
  { hasOptionType := true
    hasLastPrice := true
    hasBid := false
    hasAsk := false
    hasVolume := false
    hasOpenInterest := false
    hasIv := false
    hasMidPrice := false
    hasIvPct := false
    hasPremium := false
    hasLiquidityRatio := false
    rows := [rawRowLastOnly] }

/-- A raw row with bid/ask quotes and none of the optional columns. -/
def rawRowBare : Row :=
  { strike := 100
    dte := 10
    option_type := "call"
    lastPrice := none
    bid := some 1
    ask := some (6 / 5)
    volume := none
    openInterest := none
    impliedVolatility := none
    mid_price := none
    iv_pct := none
    premium := none
    liquidity_ratio := none }

/-- A raw chain with bid/ask present and `volume`, `openInterest`,
`impliedVolatility` all absent. -/
def rawChainBare : DF :=
  { hasOptionType := true
    hasLastPrice := false
    hasBid := true
    hasAsk := true
    hasVolume := false
    hasOpenInterest := false
    hasIv := false
    hasMidPrice := false
    hasIvPct := false
    hasPremium := false
    hasLiquidityRatio := false
    rows := [rawRowBare] }

/-- The row of `rawChainBare` after normalization: mid 1.10, premium 120,
`iv_pct` and `liquidity_ratio` NaN. -/
def procRowBare : Row :=
  { strike := 100
    dte := 10
    option_type := "call"
    lastPrice := none
    bid := some 1
    ask := some (6 / 5)
    volume := none
    openInterest := none
    impliedVolatility := none
    mid_price := some (11 / 10)
    iv_pct := none
    premium := some 120
    liquidity_ratio := none }

/-- The normalized chain obtained from `rawChainBare`. -/
def procChainBare : DF :=
  { hasOptionType := true
    hasLastPrice := false
    hasBid := true
    hasAsk := true
    hasVolume := false
    hasOpenInterest := false
    hasIv := false
    hasMidPrice := true
    hasIvPct := true
    hasPremium := true
    hasLiquidityRatio := true
    rows := [procRowBare] }

/-- A raw chain whose single contract has a zero ask: its premium is 0, so
normalization drops the row and yields an empty (but valid) table. -/
def rawChainZeroAsk : DF :=
  { hasOptionType := true
    hasLastPrice := false
    hasBid := true
    hasAsk := true
    hasVolume := false
    hasOpenInterest := false
    hasIv := false
    hasMidPrice := false
    hasIvPct := false
    hasPremium := false
    hasLiquidityRatio := false
    rows := [{ rawRowBare with bid := some 0, ask := some 0 }] }

/-- Invariant satisfied by every successfully constructed chain: the derived
columns are present, the vendor-only columns are gone, `ask` is present, and
every row is a fixed point of `procRow` with positive premium. -/
def processedInv (t : DF) : Prop :=
  t.hasAsk = true ∧ t.hasLastPrice = false ∧ t.hasOpenInterest = false ∧ t.hasIv = false ∧
    t.hasMidPrice = t.hasBid ∧ t.hasIvPct = true ∧ t.hasPremium = true ∧
    t.hasLiquidityRatio = true ∧
    ∀ r ∈ t.rows, procRow t.hasBid t.hasAsk r = r ∧ premPos r = true

/-- The normalized (empty) chain obtained from `rawChainZeroAsk`. -/
def procChainZeroAsk : DF := { procChainBare with rows := [] }

/-! ## General lemmas -/

theorem procRow_idem (hB hA : Bool) (r : Row) :
    procRow hB hA (procRow hB hA r) = procRow hB hA r := by
  cases hB <;> cases hA <;> rfl

theorem list_map_fix {α : Type} (f : α → α) :
    ∀ l : List α, (∀ x ∈ l, f x = x) → l.map f = l := by
  intro l h
  induction l with
  | nil => rfl
  | cons x xs ih =>
    simp only [List.map_cons]
    rw [h x (List.mem_cons_self x xs), ih fun y hy => h y (List.mem_cons_of_mem x hy)]

theorem list_filter_all {α : Type} (p : α → Bool) (l : List α) (h : ∀ x ∈ l, p x = true) :
    l.filter p = l :=
  List.filter_eq_self.mpr h

theorem df_rows_update (t : DF) (X : List Row) : ({ t with rows := X } : DF).rows = X := rfl

theorem df_update_update (t : DF) (X Y : List Row) :
    ({ { t with rows := X } with rows := Y } : DF) = { t with rows := Y } := rfl

theorem df_hasPremium_update (t : DF) (X : List Row) :
    ({ t with rows := X } : DF).hasPremium = t.hasPremium := rfl

/-! ## Structure of successful normalization -/

theorem init_ok_elim (df t : DF) (h : OptionsChain.init df = .ok t) :
    df.hasAsk = true ∧ t = procDF df := by
  unfold OptionsChain.init pyProcess at h
  by_cases he : df.rows.isEmpty
  · rw [if_pos he] at h; exact absurd h (by simp)
  · rw [if_neg he] at h
    by_cases hA : df.hasAsk = true
    · rw [hA] at h
      simp only [Bool.true_or, if_true] at h
      exact ⟨hA, (Except.ok.injEq _ _ ▸ h).symm⟩
    · have hA' : df.hasAsk = false := by simpa using hA
      rw [hA'] at h
      simp only [Bool.false_or, Bool.and_false, if_false] at h
      exact absurd h (by simp)

theorem procDF_inv (df : DF) (hA : df.hasAsk = true) : processedInv (procDF df) := by
  refine ⟨hA, rfl, rfl, rfl, ?_, rfl, rfl, rfl, ?_⟩
  · show (df.hasBid && df.hasAsk) = df.hasBid
    rw [hA, Bool.and_true]
  · intro r hr
    have hr' : r ∈ (df.rows.map (procRow df.hasBid df.hasAsk)).filter premPos := hr
    obtain ⟨hr1, hpos⟩ := List.mem_filter.mp hr'
    obtain ⟨r0, _, rfl⟩ := List.mem_map.mp hr1
    exact ⟨procRow_idem _ _ _, hpos⟩

theorem inv_filter (t : DF) (ht : processedInv t) (m : Row → Bool) :
    processedInv { t with rows := t.rows.filter m } := by
  obtain ⟨hA, hLP, hOI, hIv, hMid, hIvPct, hPrem, hLiq, hrows⟩ := ht
  exact ⟨hA, hLP, hOI, hIv, hMid, hIvPct, hPrem, hLiq,
    fun r hr => hrows r (List.mem_of_mem_filter hr)⟩

/-- Rebuilding an `OptionsChain` from a masked processed frame either raises
the empty-data `ValueError` or reproduces the masked frame unchanged:
re-running `_process` on already-normalized columns is the identity. -/
theorem reinit_processed (t : DF) (ht : processedInv t) (m : Row → Bool) :
    OptionsChain.init { t with rows := t.rows.filter m } =
      if (t.rows.filter m).isEmpty then .error (.valueError emptyChainMsg)
      else .ok { t with rows := t.rows.filter m } := by
  obtain ⟨hA, hLP, hOI, hIv, hMid, hIvPct, hPrem, hLiq, hrows⟩ := ht
  obtain ⟨o, lp, bidF, askF, volF, oiF, ivF, midF, ivpF, premF, liqF, rows⟩ := t
  simp only at hA hLP hOI hIv hMid hIvPct hPrem hLiq hrows
  subst hA hLP hOI hIv hMid hIvPct hPrem hLiq
  unfold OptionsChain.init pyProcess
  dsimp only
  by_cases he : (rows.filter m).isEmpty
  · rw [if_pos he, if_pos he]
  · rw [if_neg he, if_neg he, Bool.true_or, if_pos rfl]
    congr 1
    unfold procDF
    dsimp only
    congr 1
    · rw [Bool.and_true]
    · have hsub : ∀ r ∈ rows.filter m, procRow midF true r = r ∧ premPos r = true :=
        fun r hr => hrows r (List.mem_of_mem_filter hr)
      rw [list_map_fix (procRow midF true) (rows.filter m) fun r hr => (hsub r hr).1,
        list_filter_all premPos (rows.filter m) fun r hr => (hsub r hr).2]

/-- Composing two mask-and-rebuild steps on a processed chain: the outcome is
decided solely by the conjunction of the two masks. -/
theorem masked_commute (t : DF) (ht : processedInv t) (m1 m2 : Row → Bool) :
    (OptionsChain.init { t with rows := t.rows.filter m1 }).bind
        (fun c => OptionsChain.init { c with rows := c.rows.filter m2 })
      = if (t.rows.filter fun r => m2 r && m1 r).isEmpty
        then Except.error (.valueError emptyChainMsg)
        else Except.ok { t with rows := t.rows.filter fun r => m2 r && m1 r } := by
  rw [reinit_processed t ht m1]
  by_cases hd : (t.rows.filter m1).isEmpty
  · rw [if_pos hd]
    have hnil : (t.rows.filter fun r => m2 r && m1 r) = [] := by
      rw [List.filter_eq_nil_iff]
      intro r hr hcon
      exact List.filter_eq_nil_iff.mp (List.isEmpty_iff.mp hd) r hr
        ((Bool.and_eq_true _ _).mp hcon).2
    rw [if_pos (List.isEmpty_iff.mpr hnil)]
    rfl
  · rw [if_neg hd]
    simp only [Except.bind]
    rw [reinit_processed _ (inv_filter t ht m1) m2, df_rows_update, df_update_update,
      List.filter_filter]

/-! ## Claim theorems -/

/-- C6: for every chain built from any raw table, filtering by a DTE range
`[a, b]` and then by a premium ceiling `p` yields exactly the same outcome
(the same normalized table, or in the all-rows-rejected case the same
`ValueError`) as applying the two filters in the reverse order. -/
theorem dte_premium_filter_commute (df : DF) (a b : ℤ) (p : ℚ) :
    ((OptionsChain.init df).bind fun c => filter_by_dte c a b).bind
        (fun c => filter_by_premium c p)
      = ((OptionsChain.init df).bind fun c => filter_by_premium c p).bind
          fun c => filter_by_dte c a b := by
  cases hinit : OptionsChain.init df with
  | error e => rfl
  | ok t =>
    obtain ⟨hA, hteq⟩ := init_ok_elim df t hinit
    have ht : processedInv t := hteq ▸ procDF_inv df hA
    have hPrem : t.hasPremium = true := ht.2.2.2.2.2.2.1
    show (filter_by_dte t a b).bind (fun c => filter_by_premium c p)
      = (filter_by_premium t p).bind fun c => filter_by_dte c a b
    have hpremfun : ∀ m : Row → Bool,
        (OptionsChain.init { t with rows := t.rows.filter m }).bind
            (fun c => filter_by_premium c p)
          = (OptionsChain.init { t with rows := t.rows.filter m }).bind
              fun c => OptionsChain.init
                { c with rows := c.rows.filter (fun r => vLeC r.premium p) } := by
      intro m
      rw [reinit_processed t ht m]
      by_cases hd : (t.rows.filter m).isEmpty
      · rw [if_pos hd]
        rfl
      · rw [if_neg hd]
        simp only [Except.bind]
        unfold filter_by_premium
        rw [if_pos (show ({ t with rows := t.rows.filter m } : DF).hasPremium = true from hPrem)]
    have hL : (filter_by_dte t a b).bind (fun c => filter_by_premium c p)
        = if (t.rows.filter (fun r =>
              vLeC r.premium p && (decide (a ≤ r.dte) && decide (r.dte ≤ b)))).isEmpty
          then Except.error (.valueError emptyChainMsg)
          else Except.ok { t with rows := t.rows.filter (fun r =>
            vLeC r.premium p && (decide (a ≤ r.dte) && decide (r.dte ≤ b))) } := by
      rw [show filter_by_dte t a b = OptionsChain.init { t with
          rows := t.rows.filter (fun r => decide (a ≤ r.dte) && decide (r.dte ≤ b)) } from rfl]
      rw [hpremfun]
      exact masked_commute t ht _ _
    have hprem_t : filter_by_premium t p
        = OptionsChain.init { t with rows := t.rows.filter (fun r => vLeC r.premium p) } := by
      unfold filter_by_premium
      rw [if_pos hPrem]
    have hR : (filter_by_premium t p).bind (fun c => filter_by_dte c a b)
        = if (t.rows.filter (fun r =>
              (decide (a ≤ r.dte) && decide (r.dte ≤ b)) && vLeC r.premium p)).isEmpty
          then Except.error (.valueError emptyChainMsg)
          else Except.ok { t with rows := t.rows.filter (fun r =>
            (decide (a ≤ r.dte) && decide (r.dte ≤ b)) && vLeC r.premium p) } := by
      rw [hprem_t]
      exact masked_commute t ht _ _
    rw [hL, hR, List.filter_congr (fun (x : Row) _ => Bool.and_comm
      (vLeC x.premium p) (decide (a ≤ x.dte) && decide (x.dte ≤ b)))]

/-- C5: every row of a successfully normalized chain has a real (non-NaN)
premium that is strictly positive — rows whose computed premium is NaN or
non-positive are removed by the `premium > 0` mask. -/
theorem normalization_premium_invariant (df t : DF) (h : OptionsChain.init df = .ok t) :
    ∀ r ∈ t.rows, ∃ q, r.premium = some q ∧ 0 < q := by
  obtain ⟨hA, hteq⟩ := init_ok_elim df t h
  have ht : processedInv t := hteq ▸ procDF_inv df hA
  intro r hr
  have hpos := (ht.2.2.2.2.2.2.2.2 r hr).2
  cases hq : r.premium with
  | none => simp only [premPos, vGtC, hq] at hpos; exact absurd hpos (by simp)
  | some q =>
    simp only [premPos, vGtC, hq, decide_eq_true_eq] at hpos
    exact ⟨q, rfl, hpos⟩

/-! ## Concrete evaluation helpers -/

theorem pyLower_put : pyLower "put" = "put" := by decide

theorem call_beq_put : (("call" : String) == "put") = false := by decide

theorem init_rawChainBare : OptionsChain.init rawChainBare = .ok procChainBare := by
  simp only [OptionsChain.init, pyProcess, procDF, procRow, selRow, premPos, vGtC, vMap2, vMulC,
    rawChainBare, rawRowBare, procChainBare, procRowBare, List.map, List.filter, List.isEmpty]
  norm_num

theorem init_procChainBare : OptionsChain.init procChainBare = .ok procChainBare := by
  simp only [OptionsChain.init, pyProcess, procDF, procRow, selRow, premPos, vGtC, vMap2, vMulC,
    procChainBare, procRowBare, List.map, List.filter, List.isEmpty]
  norm_num

theorem init_rawChainZeroAsk : OptionsChain.init rawChainZeroAsk = .ok procChainZeroAsk := by
  simp only [OptionsChain.init, pyProcess, procDF, procRow, selRow, premPos, vGtC, vMap2, vMulC,
    rawChainZeroAsk, rawRowBare, procChainZeroAsk, procChainBare, List.map, List.filter,
    List.isEmpty]
  norm_num

theorem clip01_nonneg (x : ℚ) : 0 ≤ clip x 0 100 :=
  le_min (le_max_right x 0) (by norm_num)

theorem clip01_le (x : ℚ) : clip x 0 100 ≤ 100 := min_le_right _ _

theorem clip01_eq (x : ℚ) (h0 : 0 ≤ x) (h1 : x ≤ 100) : clip x 0 100 = x := by
  rw [clip, max_eq_left h0, min_eq_left h1]

/-- C5 witness: the single surviving row of the concrete chain
`rawChainBare` carries the positive premium 120. -/
theorem normalization_premium_invariant_witness :
    ∃ q, procRowBare.premium = some q ∧ 0 < q :=
  normalization_premium_invariant rawChainBare procChainBare init_rawChainBare
    procRowBare (by simp [procChainBare])

/-- C1: on a fully-populated one-contract chain (dte 10, premium 110, side
call, volume 5), each filtering operation whose predicate matches no rows —
DTE range [20, 45], premium ceiling 0.50, option side put, minimum volume
100 — raises the constructor `ValueError` instead of returning an empty
table: every filter rebuilds the chain through `OptionsChain.__init__`,
whose empty-input guard rejects the empty masked frame. -/
theorem filters_raise_on_empty_result :
    (OptionsChain.init rawChainC1).bind (fun c => filter_by_dte c 20 45)
        = .error (.valueError emptyChainMsg) ∧
      (OptionsChain.init rawChainC1).bind (fun c => filter_by_premium c (1 / 2))
        = .error (.valueError emptyChainMsg) ∧
      (OptionsChain.init rawChainC1).bind (fun c => filter_by_type c "put")
        = .error (.valueError emptyChainMsg) ∧
      (OptionsChain.init rawChainC1).bind (fun c => filter_by_volume c 100)
        = .error (.valueError emptyChainMsg) := by
  refine ⟨?_, ?_, ?_, ?_⟩
  · norm_num [OptionsChain.init, pyProcess, procDF, procRow, selRow, premPos, vGtC, vMap2,
      vMulC, rawChainC1, rawRowC1, List.isEmpty, Except.bind, filter_by_dte]
  · norm_num [OptionsChain.init, pyProcess, procDF, procRow, selRow, premPos, vGtC, vMap2,
      vMulC, vLeC, rawChainC1, rawRowC1, List.isEmpty, Except.bind, filter_by_premium]
  · norm_num [OptionsChain.init, pyProcess, procDF, procRow, selRow, premPos, vGtC, vMap2,
      vMulC, rawChainC1, rawRowC1, List.isEmpty, Except.bind, filter_by_type, pyLower_put,
      call_beq_put]
  · norm_num [OptionsChain.init, pyProcess, procDF, procRow, selRow, premPos, vGtC, vMap2,
      vMulC, vGeC, rawChainC1, rawRowC1, List.isEmpty, Except.bind, filter_by_volume]

/-- C2: at account value 10000, premium 1.50 and one contract the intended
risk computation (with the spec configuration `max_premium = 200`) yields
position_size 1, account_risk_pct 1.5, recommended, no warnings — but the
shipped code path, whose `RiskConfig` lacks the `max_premium` attribute read
at risk.py line 106, raises `AttributeError` instead of returning it. -/
theorem long_option_risk_default_config :
    calculate_long_option_risk 10000 risk_config (3 / 2) 1
        = .error (.attributeError "RiskConfig object has no attribute max_premium") ∧
      calculate_long_option_risk_core 10000 risk_config.max_portfolio_risk 200 (3 / 2) 1
        = { max_loss := 150, max_gain := 450, break_even := 3 / 2, risk_reward_ratio := 1 / 3,
            position_size := 1, account_risk_pct := 3 / 2, probability_of_profit := none,
            recommended := true, warnings := none } := by
  constructor
  · rfl
  · norm_num [calculate_long_option_risk_core, risk_config, pyInt, riskWarnMsg, premWarnMsg]

/-- C3: the IV-rank sub-score leaves the documented [0, 100] range: at IV
rank 0 — a value `calculate_iv_rank` genuinely produces, e.g. a current IV
equal to the minimum of the history [10, 20] — the score `80 + (30 − rank)`
evaluates to 110. -/
theorem iv_rank_score_out_of_bounds :
    score_iv_rank { volatility := some { iv_rank := some 0 } } = 110 ∧
      calculate_iv_rank [10, 20] 10 = (0, 0) := by
  constructor
  · norm_num [score_iv_rank]
  · norm_num [calculate_iv_rank, clip, List.foldl, List.countP_cons, List.countP_nil,
      min_def, max_def]

/-- C7: for every rolling-HV history and current IV, `calculate_iv_rank`
returns a rank and percentile in [0, 100]; on an empty history both are
exactly 50; when the history maximum equals its minimum the rank is 50; and
the percentile equals the fraction of history values strictly below the
current IV times 100 (the clamp never alters it). -/
theorem iv_rank_percentile_spec :
    (∀ (l : List ℚ) (c : ℚ),
        0 ≤ (calculate_iv_rank l c).1 ∧ (calculate_iv_rank l c).1 ≤ 100 ∧
          0 ≤ (calculate_iv_rank l c).2 ∧ (calculate_iv_rank l c).2 ≤ 100) ∧
      (∀ c : ℚ, calculate_iv_rank [] c = (50, 50)) ∧
      (∀ (c x : ℚ) (xs : List ℚ), xs.foldl max x = xs.foldl min x →
        (calculate_iv_rank (x :: xs) c).1 = 50) ∧
      (∀ (c x : ℚ) (xs : List ℚ),
        (calculate_iv_rank (x :: xs) c).2 =
          ((x :: xs).countP (fun v => decide (v < c)) : ℚ) / ((x :: xs).length : ℚ) * 100) := by
  have hpct : ∀ (c x : ℚ) (xs : List ℚ),
      0 ≤ ((x :: xs).countP (fun v => decide (v < c)) : ℚ) / ((x :: xs).length : ℚ) * 100 ∧
        ((x :: xs).countP (fun v => decide (v < c)) : ℚ) / ((x :: xs).length : ℚ) * 100 ≤ 100 := by
    intro c x xs
    have hlen : (0 : ℚ) < ((x :: xs).length : ℚ) := by
      have : 0 < (x :: xs).length := Nat.succ_pos xs.length
      exact_mod_cast this
    constructor
    · exact mul_nonneg (div_nonneg (Nat.cast_nonneg _) hlen.le) (by norm_num)
    · have hle : ((x :: xs).countP (fun v => decide (v < c)) : ℚ) ≤ ((x :: xs).length : ℚ) := by
        exact_mod_cast List.countP_le_length (fun v => decide (v < c))
      calc ((x :: xs).countP (fun v => decide (v < c)) : ℚ) / ((x :: xs).length : ℚ) * 100
          ≤ 1 * 100 := by
            apply mul_le_mul_of_nonneg_right _ (by norm_num)
            exact (div_le_one hlen).mpr hle
        _ = 100 := by norm_num
  refine ⟨?_, fun c => rfl, ?_, ?_⟩
  · intro l c
    cases l with
    | nil => norm_num [calculate_iv_rank]
    | cons x xs => exact ⟨clip01_nonneg _, clip01_le _, clip01_nonneg _, clip01_le _⟩
  · intro c x xs hflat
    show clip (if xs.foldl max x = xs.foldl min x then (50 : ℚ)
      else (c - xs.foldl min x) / (xs.foldl max x - xs.foldl min x) * 100) 0 100 = 50
    rw [if_pos hflat]
    norm_num [clip]
  · intro c x xs
    show clip (((x :: xs).countP (fun v => decide (v < c)) : ℚ)
        / ((x :: xs).length : ℚ) * 100) 0 100 = _
    exact clip01_eq _ (hpct c x xs).1 (hpct c x xs).2

/-- C7 witness: on the empty history both outputs are 50; on [7, 7] (no
spread) the rank is 50; on [5, 7] with current IV 6 the percentile is 50. -/
theorem iv_rank_percentile_spec_witness :
    calculate_iv_rank [] 25 = (50, 50) ∧ (calculate_iv_rank [7, 7] 9).1 = 50 ∧
      (calculate_iv_rank [5, 7] 6).2 = 50 := by
  refine ⟨iv_rank_percentile_spec.2.1 25,
    iv_rank_percentile_spec.2.2.1 9 7 [7] (by simp), ?_⟩
  rw [iv_rank_percentile_spec.2.2.2 6 5 [7]]
  norm_num [List.countP_cons, List.countP_nil]

/-- C8 counterexample: at entry price 1.00, current price 0.40, dte 2 the
claimed characterisation "reason is expiration decay exactly when dte ≤ 3 and
P&L% < 20" fails — the condition holds (dte 2 ≤ 3, P&L% = −60 < 20) but the
code returns the stop-loss signal, because the stop-loss check runs first. -/
theorem exit_decay_condition_not_exact :
    ¬ (exitReason (get_exit_signal ⟨some 1, some (2 / 5), some 2, some 1⟩)
          = some ExitReason.expirationDecay
        ↔ ((2 : ℤ) ≤ 3 ∧ ((2 / 5 : ℚ) - 1) / 1 * 100 < 20)) := by
  intro hiff
  have h := hiff.mpr ⟨by norm_num, by norm_num⟩
  rw [show get_exit_signal ⟨some 1, some (2 / 5), some 2, some 1⟩
      = some { action := "sell", reason := .stopLoss, pnl := -60 } from by
    norm_num [get_exit_signal]] at h
  simp [exitReason] at h

/-- C8 (amended): for nonzero entry and current prices, the exit reason is
profit target exactly when P&L% ≥ 50, stop loss exactly when P&L% ≤ −50,
expiration decay exactly when dte ≤ 3 and −50 < P&L% < 20 (the three checks
run in that priority order), and otherwise no signal is returned. -/
theorem exit_signal_threshold_spec (e c : ℚ) (d k : ℤ) (he : e ≠ 0) (hc : c ≠ 0) :
    (exitReason (get_exit_signal ⟨some e, some c, some d, some k⟩) = some ExitReason.profitTarget
        ↔ 50 ≤ (c - e) / e * 100) ∧
      (exitReason (get_exit_signal ⟨some e, some c, some d, some k⟩) = some ExitReason.stopLoss
        ↔ (c - e) / e * 100 ≤ -50) ∧
      (exitReason (get_exit_signal ⟨some e, some c, some d, some k⟩)
          = some ExitReason.expirationDecay
        ↔ (d ≤ 3 ∧ -50 < (c - e) / e * 100 ∧ (c - e) / e * 100 < 20)) ∧
      (get_exit_signal ⟨some e, some c, some d, some k⟩ = none
        ↔ (¬ 50 ≤ (c - e) / e * 100 ∧ ¬ (c - e) / e * 100 ≤ -50
            ∧ ¬ (d ≤ 3 ∧ (c - e) / e * 100 < 20))) := by
  unfold get_exit_signal
  simp only [Option.getD_some]
  rw [if_neg (not_or.mpr ⟨he, hc⟩)]
  by_cases h1 : (50 : ℚ) ≤ (c - e) / e * 100
  · rw [if_pos h1]
    refine ⟨?_, ?_, ?_, ?_⟩ <;> simp [exitReason]
    · exact h1
    · linarith
    · intro hd hlow; linarith
    · intro h _; exact absurd h (not_lt.mpr h1)
  · rw [if_neg h1]
    by_cases h2 : (c - e) / e * 100 ≤ -50
    · rw [if_pos h2]
      refine ⟨?_, ?_, ?_, ?_⟩ <;> simp [exitReason]
      · linarith
      · exact h2
      · intro hd hlow; linarith
      · intro _ h; exact absurd h (not_lt.mpr h2)
    · rw [if_neg h2]
      by_cases h3 : d ≤ 3 ∧ (c - e) / e * 100 < 20
      · rw [if_pos h3]
        refine ⟨?_, ?_, ?_, ?_⟩ <;> simp [exitReason]
        · linarith [h3.2]
        · exact not_le.mp h2
        · exact ⟨h3.1, not_le.mp h2, h3.2⟩
        · intro _ _; exact h3
      · rw [if_neg h3]
        refine ⟨?_, ?_, ?_, ?_⟩ <;> simp [exitReason]
        · exact not_le.mp h1
        · exact not_le.mp h2
        · intro hd _; exact not_lt.mp fun hlt => h3 ⟨hd, hlt⟩
        · exact ⟨not_le.mp h1, not_le.mp h2, fun hd => not_lt.mp fun hlt => h3 ⟨hd, hlt⟩⟩

/-- C8 witness: entry 1.00, current 1.50, dte 10 — P&L% = 50, so the signal
carries the profit-target reason. -/
theorem exit_signal_threshold_spec_witness :
    exitReason (get_exit_signal ⟨some 1, some (3 / 2), some 10, some 1⟩)
      = some ExitReason.profitTarget := by
  have h := exit_signal_threshold_spec 1 (3 / 2) 10 1 (by norm_num) (by norm_num)
  exact h.1.mpr (by norm_num)

/-- C9: a raw table whose only price column is the last-traded price makes
normalization raise `KeyError` (the renamed `mid_price` column is dropped by
the post-rename keep-list); with bid/ask present and `volume`,
`openInterest`, `impliedVolatility` all absent, normalization succeeds with
all-NaN `liquidity_ratio` and `iv_pct` and the min-volume/min-OI filters
reproduce the chain unchanged — yet on a chain normalized to zero rows the
no-op branch still raises the constructor `ValueError`. -/
theorem normalization_missing_columns :
    OptionsChain.init rawChainLastOnly = .error (.keyError "mid_price") ∧
      OptionsChain.init rawChainBare = .ok procChainBare ∧
      (procChainBare.rows.all fun r =>
          decide (r.liquidity_ratio = none) && decide (r.iv_pct = none)) = true ∧
      filter_by_volume procChainBare 100 = .ok procChainBare ∧
      filter_by_oi procChainBare 100 = .ok procChainBare ∧
      OptionsChain.init rawChainZeroAsk = .ok procChainZeroAsk ∧
      filter_by_oi procChainZeroAsk 100 = .error (.valueError emptyChainMsg) :=
  ⟨by norm_num [OptionsChain.init, pyProcess, rawChainLastOnly, List.isEmpty],
    init_rawChainBare, by rfl, init_procChainBare, init_procChainBare,
    init_rawChainZeroAsk, by rfl⟩

/-- C10: whenever the position's entry price or current price is missing or
zero, exit evaluation returns no signal — in particular a long option whose
current price has fallen to exactly 0 (a −100% loss) never produces the
stop-loss exit. -/
theorem exit_hold_on_zero_price (pos : Position)
    (h : pos.entry_price.getD 0 = 0 ∨ pos.current_price.getD 0 = 0) :
    get_exit_signal pos = none := by
  unfold get_exit_signal
  rw [if_pos h]

/-- C10 witness: entry 1.00 and current price exactly 0 — the total-loss
position — yields no exit signal. -/
theorem exit_hold_on_zero_price_witness :
    get_exit_signal ⟨some 1, some 0, some 10, some 1⟩ = none :=
  exit_hold_on_zero_price ⟨some 1, some 0, some 10, some 1⟩ (Or.inr rfl)
